import Mathlib

/-!
Verification of the LastPerson07 wallpaper-bot content acquisition pipeline.

Python strings are modelled as Lean `String` (a packed `List Char`), Python
integers as `Int` (or `Nat` where the source value is a count or a date
ordinal), calendar dates as `Nat` day ordinals, and `None` as `Option.none`.
Stateful database operations are modelled by explicit state passing: the
`users` collection as a lookup function `Int → Option user`, the `schedules`
collection as a `List` of schedule documents (MongoDB `update_one` updates the
first matching document).  Network I/O is modelled by environment parameters
describing the provider / HTTP responses.
-/

namespace LastPerson07

/-! ## Configuration constants (src/config/config.py) -/

/-- `LASTPERSON07_FREE_FETCH_LIMIT = 5` (config.py line 29). -/
def LASTPERSON07_FREE_FETCH_LIMIT : Int := 5

/-- `LASTPERSON07_MIN_IMAGE_WIDTH = 1920` (config.py line 32). -/
def LASTPERSON07_MIN_IMAGE_WIDTH : Int := 1920

/-- `LASTPERSON07_MIN_IMAGE_HEIGHT = 1080` (config.py line 33). -/
def LASTPERSON07_MIN_IMAGE_HEIGHT : Int := 1080

/-- `LASTPERSON07_MAX_FILE_SIZE_MB = 20` (config.py line 34). -/
def LASTPERSON07_MAX_FILE_SIZE_MB : Int := 20

/-- Modelled from the spec: `LASTPERSON07_DEFAULT_CATEGORY` is imported by
`src/utils/fetcher.py` and `src/utils/scheduler.py` from `config.config` but
its definition is missing from `src/config/config.py`.  The spec only says
the normalizer "returns a fixed default category"; its end-to-end scenario
(§8) and the categories list (config.py lines 49-54, first entry `"nature"`)
fix the default to the category token `"nature"`. -/
def LASTPERSON07_DEFAULT_CATEGORY : String := "nature"

/-! ## Category normalizer (src/utils/fetcher.py lines 309-326)

`lastperson07_sanitize_category` is

```
re.sub(r'[^a-zA-Z0-9\s]', '', category)   -- keep ASCII alphanumerics and whitespace
' '.join(sanitized.split())               -- collapse whitespace runs, trim
sanitized[:50].rstrip() when len > 50     -- truncate
default category when empty; .lower()    -- lower-case the result
```

modelled character-by-character on the string's character list. -/

/-- Characters matched by the regex class `[a-zA-Z0-9]`
(codes 65-90, 97-122, 48-57). -/
def reAlnum (c : Char) : Bool :=
  (65 ≤ c.toNat && c.toNat ≤ 90) || (97 ≤ c.toNat && c.toNat ≤ 122) ||
    (48 ≤ c.toNat && c.toNat ≤ 57)

/-- Characters treated as whitespace by Python's regex class `\s` and by
`str.split()` (the Unicode whitespace class; both sites use the same class,
which is all the claims depend on). -/
def pyIsSpace (c : Char) : Bool :=
  c == ' ' || c == '\t' || c == '\n' || c == '\r' || c == '\x0b' ||
    c == '\x0c' || c == '\x1c' || c == '\x1d' || c == '\x1e' || c == '\x1f' ||
    c == '\x85' || c == '\xa0' || c == ' ' || c == ' ' ||
    c == ' ' || c == ' ' || c == ' ' || c == ' ' ||
    c == ' ' || c == ' ' || c == ' ' || c == ' ' ||
    c == ' ' || c == ' ' || c == ' ' || c == ' ' ||
    c == ' ' || c == ' ' || c == '　'

/-- Python `str.split()`: split on whitespace runs, discarding empty pieces.
`acc` holds the characters of the word currently being read, reversed. -/
def pySplitAux : List Char → List Char → List (List Char)
  | [], acc => if acc = [] then [] else [acc.reverse]
  | c :: rest, acc =>
    if pyIsSpace c then
      if acc = [] then pySplitAux rest [] else acc.reverse :: pySplitAux rest []
    else
      pySplitAux rest (c :: acc)

/-- Python `str.split()` with no separator argument. -/
def pySplit (l : List Char) : List (List Char) :=
  pySplitAux l []

/-- Python `' '.join(words)`. -/
def joinSpace : List (List Char) → List Char
  | [] => []
  | [w] => w
  | w :: ws => w ++ ' ' :: joinSpace ws

/-- Python `str.rstrip()` (with the whitespace class above). -/
def pyRstrip (l : List Char) : List Char :=
  (l.reverse.dropWhile pyIsSpace).reverse

/-- Python `str.lower()` restricted to its ASCII action (the only characters
reaching it in this pipeline are ASCII): `A`-`Z` map to `a`-`z`,
everything else is unchanged. -/
def pyLowerChar (c : Char) : Char :=
  if 65 ≤ c.toNat ∧ c.toNat ≤ 90 then Char.ofNat (c.toNat + 32) else c

/-- Stage 1 of the sanitizer, `re.sub(r'[^a-zA-Z0-9\s]', '', category)`:
keep exactly the characters the regex class retains. -/
def keptOf (category : List Char) : List Char :=
  category.filter (fun c => reAlnum c || pyIsSpace c)

/-- Stage 2, `' '.join(sanitized.split())`. -/
def joinedOf (category : List Char) : List Char :=
  joinSpace (pySplit (keptOf category))

/-- Stage 3, `sanitized[:50].rstrip()` applied only when `len > 50`. -/
def limitedOf (category : List Char) : List Char :=
  if 50 < (joinedOf category).length then pyRstrip ((joinedOf category).take 50)
  else joinedOf category

/-- `LastPerson07WallpaperFetcher.lastperson07_sanitize_category`
(fetcher.py lines 309-326), on the character list of the argument. -/
def sanitizeCore (category : List Char) : List Char :=
  if category = [] then LASTPERSON07_DEFAULT_CATEGORY.data
  else if limitedOf category = [] then LASTPERSON07_DEFAULT_CATEGORY.data
  else (limitedOf category).map pyLowerChar

/-- `LastPerson07WallpaperFetcher.lastperson07_sanitize_category`
(fetcher.py lines 309-326). -/
def lastperson07_sanitize_category (category : String) : String :=
  ⟨sanitizeCore category.data⟩

/-- Characters allowed in a sanitized category: lower-case ASCII letters
(codes 97-122), ASCII digits (codes 48-57), and the space character. -/
def isSanitizedChar (c : Char) : Prop :=
  (97 ≤ c.toNat ∧ c.toNat ≤ 122) ∨ (48 ≤ c.toNat ∧ c.toNat ≤ 57) ∨ c = ' '

/-! ## Wallpaper data (src/db/models.py lines 160-181) -/

/-- `LastPerson07WallpaperData` (models.py lines 160-181).  Every provider
adapter fills `download_url` with a string (possibly empty), so it is
modelled as `String`. -/
structure LastPerson07WallpaperData where
  title : String
  width : Int
  height : Int
  author : String
  source : String
  image_url : String
  download_url : String
  deriving Repr, DecidableEq

/-! ## Provider adapter: Unsplash field mapping
(src/utils/fetcher.py lines 88-134)

The network layer is modelled by an `ApiResponse`: either HTTP 200 with the
decoded JSON payload, some other status, or a raised network error (the
source catches it and returns `None`). -/

/-- Outcome of one provider HTTP call. -/
inductive ApiResponse (α : Type) where
  | ok (data : α)
  | status (code : Nat)
  | exn
  deriving Repr, DecidableEq

/-- One element of the Unsplash JSON array, keeping the fields the adapter
reads; `none` models a missing key (`dict.get` default). -/
structure UnsplashPhoto where
  alt_description : Option String
  width : Option Int
  height : Option Int
  user_name : Option String
  urls_regular : Option String
  urls_full : Option String
  deriving Repr, DecidableEq

/-- `LastPerson07WallpaperFetcher.lastperson07_fetch_from_unsplash`
(fetcher.py lines 88-134): no key, non-200 status, empty payload and network
errors all yield `none`; otherwise the first photo is mapped with defaults
`"Untitled"`, `0`, `0`, `"Unknown"`, `""`. -/
def lastperson07_fetch_from_unsplash (key : Option String)
    (resp : ApiResponse (List UnsplashPhoto)) : Option LastPerson07WallpaperData :=
  match key with
  | none => none
  | some _ =>
    match resp with
    | .ok [] => none
    | .ok (photo :: _) =>
      some
        { title := photo.alt_description.getD "Untitled"
          width := photo.width.getD 0
          height := photo.height.getD 0
          author := photo.user_name.getD "Unknown"
          source := "Unsplash"
          image_url := photo.urls_regular.getD ""
          download_url := photo.urls_full.getD "" }
    | .status _ => none
    | .exn => none

/-! ## Acquisition coordinator (src/utils/fetcher.py lines 50-74)

`fetch_wallpaper` tries `["unsplash", "pexels", "pixabay"]` in order; per
source it calls `lastperson07_fetch_from_api` (all of whose failure paths
return `None`), and on a record it evaluates
`not self.pillow_available or await self.lastperson07_download_and_validate_image(url)`
(so the validator is not called at all when Pillow is unavailable) and
returns the record if that condition holds, otherwise continues.  A raised
exception inside the loop body is caught and treated as `continue`, i.e.
exactly like a rejection, so the validator environment is modelled as a
boolean function of the URL.  The trace records which providers were fetched
and which URLs were passed to the validator, in order. -/

/-- Fixed provider priority order (fetcher.py line 55). -/
def providerOrder : List String := ["unsplash", "pexels", "pixabay"]

/-- Result of an acquisition attempt plus the observable calls it made. -/
structure FetchTrace where
  result : Option LastPerson07WallpaperData
  fetched : List String
  validated : List String
  deriving Repr, DecidableEq

/-- The `for api_source in [...]` loop body of `fetch_wallpaper`
(fetcher.py lines 55-71) over a list of provider names. -/
def fetchChain (pillow : Bool) (fetchFrom : String → Option LastPerson07WallpaperData)
    (validate : String → Bool) : List String → FetchTrace
  | [] => ⟨none, [], []⟩
  | s :: rest =>
    match fetchFrom s with
    | none =>
      let t := fetchChain pillow fetchFrom validate rest
      ⟨t.result, s :: t.fetched, t.validated⟩
    | some d =>
      if pillow then
        if validate d.image_url then ⟨some d, [s], [d.image_url]⟩
        else
          let t := fetchChain pillow fetchFrom validate rest
          ⟨t.result, s :: t.fetched, d.image_url :: t.validated⟩
      else ⟨some d, [s], []⟩

/-- `LastPerson07WallpaperFetcher.fetch_wallpaper` (fetcher.py lines 50-74):
sanitize the category, then run the fallback chain.  `fetchApi src cat`
is the outcome of `lastperson07_fetch_from_api(src, cat)` for this call. -/
def fetch_wallpaper (pillow : Bool)
    (fetchApi : String → String → Option LastPerson07WallpaperData)
    (validate : String → Bool) (category : String) : FetchTrace :=
  fetchChain pillow (fun s => fetchApi s (lastperson07_sanitize_category category))
    validate providerOrder

/-! ## Content validator (src/utils/fetcher.py lines 235-307)

The environment of one call is the download outcome and, when a body was
stored, its decode outcome.  `Except Unit Bool` distinguishes a returned
boolean from an exception escaping the function: in the outer
`except Exception` handler (fetcher.py lines 303-307) the source evaluates
`os.path.exists(temp_path.name)` where `temp_path` is a `str`, raising
`AttributeError`, so a download-time error with the temp file already
created escapes instead of returning `False`. -/

/-- Outcome of decoding the stored image with Pillow. -/
inductive Decoded where
  | img (width height : Int) (format : String)
  | failure
  deriving Repr, DecidableEq

/-- Outcome of the download step of the validator. -/
inductive DownloadResult where
  /-- Temp-file creation raised before `temp_file` was assigned. -/
  | tempFileError
  /-- HTTP status 200; `contentLength` is the parsed `content-length` header
  if present, `body` the decode outcome of the stored bytes. -/
  | ok (contentLength : Option Int) (body : Decoded)
  /-- HTTP status other than 200. -/
  | statusError (code : Nat)
  /-- Exception raised during the download (network error, timeout, write
  failure) after the temp file existed. -/
  | netError
  deriving Repr, DecidableEq

/-- Result of a validator call: the value returned (or the exception that
escaped), and whether a decode of the image was attempted. -/
structure ValidationOutcome where
  result : Except Unit Bool
  decodeAttempted : Bool
  deriving Repr

/-- `LastPerson07WallpaperFetcher.lastperson07_download_and_validate_image`
(fetcher.py lines 235-307). -/
def lastperson07_download_and_validate_image (pillow : Bool)
    (download : DownloadResult) : ValidationOutcome :=
  if pillow then
    match download with
    | .tempFileError => ⟨.ok false, false⟩
    | .netError => ⟨.error (), false⟩
    | .statusError _ => ⟨.ok false, false⟩
    | .ok contentLength body =>
      if (contentLength.map
            (fun n => decide (LASTPERSON07_MAX_FILE_SIZE_MB * 1024 * 1024 < n))).getD false then
        ⟨.ok false, false⟩
      else
        match body with
        | .failure => ⟨.ok false, true⟩
        | .img w h fmt =>
          if w < LASTPERSON07_MIN_IMAGE_WIDTH ∨ h < LASTPERSON07_MIN_IMAGE_HEIGHT then
            ⟨.ok false, true⟩
          else if fmt ∈ ["JPEG", "JPG", "PNG", "WEBP"] then ⟨.ok true, true⟩
          else ⟨.ok false, true⟩
  else ⟨.ok true, false⟩

/-! ## Quota tracker (src/db/queries.py lines 65-93) -/

/-- `UserTier` (models.py lines 11-14). -/
inductive UserTier where
  | free
  | premium
  deriving Repr, DecidableEq

/-- `LastPerson07User` (models.py lines 21-61), with the calendar date of
`last_fetch_date` as a `Nat` day ordinal (`check_daily_limit` only ever
compares `last_fetch.date()` with today's date). -/
structure LastPerson07User where
  id : Int
  username : Option String
  first_name : String
  tier : UserTier
  fetch_count : Int
  last_fetch_date : Option Nat
  banned : Bool
  deriving Repr, DecidableEq

/-- The `users` collection, keyed by `_id` (unique in MongoDB). -/
def UserStore : Type := Int → Option LastPerson07User

/-- `update_one("users", {"_id": user_id}, {"$set": {"fetch_count": v}})`. -/
def setFetchCount (store : UserStore) (user_id : Int) (v : Int) : UserStore :=
  fun i =>
    if i = user_id then (store i).map (fun u => { u with fetch_count := v })
    else store i

/-- `LastPerson07Queries.check_daily_limit` (queries.py lines 65-93):
returns the `(limited, remaining)` pair together with the users collection
after the call (the new-day branch resets `fetch_count` to `0`). -/
def check_daily_limit (store : UserStore) (user_id : Int) (today : Nat) :
    (Bool × Int) × UserStore :=
  match store user_id with
  | none => ((false, LASTPERSON07_FREE_FETCH_LIMIT), store)
  | some user =>
    if user.tier = UserTier.premium then ((false, -1), store)
    else
      match user.last_fetch_date with
      | some d =>
        if d = today then
          let remaining := max 0 (LASTPERSON07_FREE_FETCH_LIMIT - user.fetch_count)
          ((remaining == 0, remaining), store)
        else ((false, LASTPERSON07_FREE_FETCH_LIMIT), setFetchCount store user_id 0)
      | none => ((false, LASTPERSON07_FREE_FETCH_LIMIT), setFetchCount store user_id 0)

/-! ## Schedule registry and job scheduler
(src/db/queries.py lines 183-225, src/utils/scheduler.py lines 85-184) -/

/-- `LastPerson07Schedule` (models.py lines 63-94); `interval` is kept as its
string value, `last_post_time` as a `Nat` timestamp. -/
structure LastPerson07Schedule where
  channel_id : Int
  interval : String
  category : String
  last_post_time : Option Nat
  active : Bool
  deriving Repr, DecidableEq

/-- `LastPerson07Queries.create_schedule` (queries.py lines 183-198):
`ScheduleInterval(interval)` raises for an interval outside
`{"hourly", "daily"}`, which the `except` turns into no insertion.
Otherwise `insert_one` is attempted with the document of
`LastPerson07Schedule(_id=None, ...).to_dict()`, which always carries
`"_id": None`: MongoDB generates an ObjectId only when the `_id` key is
absent, so the first stored document has `_id` null and every later insert
raises `DuplicateKeyError` on the unique `_id` index, which
`client.insert_one` (client.py lines 112-124) swallows, storing nothing.
Hence the fresh document (`last_post_time=None`, `active=True`) is appended
only when the collection is empty. -/
def create_schedule (store : List LastPerson07Schedule) (channel_id : Int)
    (interval category : String) : List LastPerson07Schedule :=
  if (interval = "hourly" ∨ interval = "daily") ∧ store = [] then
    store ++ [{ channel_id := channel_id, interval := interval,
                category := category, last_post_time := none, active := true }]
  else store

/-- `LastPerson07Queries.update_schedule_last_post` (queries.py lines
213-225): MongoDB `update_one` sets `last_post_time` on the first document
matching `{"channel_id": channel_id}`. -/
def update_schedule_last_post (store : List LastPerson07Schedule)
    (channel_id : Int) (now : Nat) : List LastPerson07Schedule :=
  match store with
  | [] => []
  | e :: rest =>
    if e.channel_id = channel_id then { e with last_post_time := some now } :: rest
    else e :: update_schedule_last_post rest channel_id now

/-- APScheduler job id `f"schedule_{channel_id}_{interval}"`
(scheduler.py lines 101, 122). -/
def jobId (channel_id : Int) (interval : String) : String :=
  "schedule_" ++ toString channel_id ++ "_" ++ interval

/-- `scheduler.add_job(..., id=job_id, replace_existing=True)`: at most one
job per id, replacing any existing job with the same id. -/
def addJobReplace (jobs : List String) (id : String) : List String :=
  jobs.filter (fun j => j ≠ id) ++ [id]

/-- `scheduler.remove_job(job_id)` wrapped in `try/except pass`: drops the
job with that id if present. -/
def removeJob (jobs : List String) (id : String) : List String :=
  jobs.filter (fun j => j ≠ id)

/-- `LastPerson07Scheduler.lastperson07_add_schedule` (scheduler.py lines
85-116): always calls `create_schedule` first (its result is ignored); an
interval outside `{"hourly", "daily"}` then returns `False` without arming a
timer; otherwise the job for the key is (re)armed and `True` is returned. -/
def lastperson07_add_schedule (jobs : List String)
    (store : List LastPerson07Schedule) (channel_id : Int)
    (interval category : String) :
    List String × List LastPerson07Schedule × Bool :=
  let store1 := create_schedule store channel_id interval category
  if interval = "hourly" ∨ interval = "daily" then
    (addJobReplace jobs (jobId channel_id interval), store1, true)
  else (jobs, store1, false)

/-- `LastPerson07Scheduler.lastperson07_remove_schedule` (scheduler.py lines
118-136): cancels the timer for the key, then — under a comment saying
"Mark as inactive in database" — calls `update_schedule_last_post`. -/
def lastperson07_remove_schedule (jobs : List String)
    (store : List LastPerson07Schedule) (channel_id : Int) (interval : String)
    (now : Nat) : List String × List LastPerson07Schedule :=
  (removeJob jobs (jobId channel_id interval),
   update_schedule_last_post store channel_id now)

/-- `LastPerson07Scheduler.lastperson07_post_wallpaper_job` (scheduler.py
lines 138-184): on a failed acquisition it returns before any update; on a
successful acquisition it sends the photo (`sendOk = false` models
`send_photo` raising, which the outer `except` catches after skipping the
rest of the body; caption formatting and the reaction helper swallow their
own errors) and only then updates `last_post_time`.  Returns the schedules
collection after the tick and whether the photo was delivered. -/
def lastperson07_post_wallpaper_job (store : List LastPerson07Schedule)
    (channel_id : Int) (now : Nat)
    (fetchResult : Option LastPerson07WallpaperData) (sendOk : Bool) :
    List LastPerson07Schedule × Bool :=
  match fetchResult with
  | none => (store, false)
  | some _ =>
    if sendOk then (update_schedule_last_post store channel_id now, true)
    else (store, false)

/-! ## Lemmas about the category normalizer -/

theorem toNat_ofNat_lt {n : Nat} (h : n < 55296) : (Char.ofNat n).toNat = n := by
  rw [Char.ofNat, dif_pos (Or.inl h)]
  rfl

theorem pySplitAux_sound :
    ∀ (l acc : List Char), (∀ c ∈ acc, pyIsSpace c = false) →
      ∀ w ∈ pySplitAux l acc, w ≠ [] ∧
        ∀ c ∈ w, (c ∈ l ∨ c ∈ acc) ∧ pyIsSpace c = false := by
  intro l
  induction l with
  | nil =>
    intro acc hacc w hw
    simp only [pySplitAux] at hw
    split at hw
    · simp at hw
    · next hne =>
      simp only [List.mem_singleton] at hw
      subst hw
      refine ⟨by simpa using hne, ?_⟩
      intro c hc
      rw [List.mem_reverse] at hc
      exact ⟨Or.inr hc, hacc c hc⟩
  | cons a l ih =>
    intro acc hacc w hw
    simp only [pySplitAux] at hw
    by_cases hsp : pyIsSpace a
    · rw [if_pos hsp] at hw
      split at hw
      · have := ih [] (by simp) w hw
        refine ⟨this.1, fun c hc => ⟨?_, (this.2 c hc).2⟩⟩
        rcases (this.2 c hc).1 with h | h
        · exact Or.inl (List.mem_cons_of_mem a h)
        · simp at h
      · next hne =>
        rcases List.mem_cons.mp hw with hw | hw
        · subst hw
          refine ⟨by simpa using hne, ?_⟩
          intro c hc
          rw [List.mem_reverse] at hc
          exact ⟨Or.inr hc, hacc c hc⟩
        · have := ih [] (by simp) w hw
          refine ⟨this.1, fun c hc => ⟨?_, (this.2 c hc).2⟩⟩
          rcases (this.2 c hc).1 with h | h
          · exact Or.inl (List.mem_cons_of_mem a h)
          · simp at h
    · rw [if_neg hsp] at hw
      have hacc' : ∀ c ∈ a :: acc, pyIsSpace c = false := by
        intro c hc
        rcases List.mem_cons.mp hc with rfl | hc
        · simpa using hsp
        · exact hacc c hc
      have := ih (a :: acc) hacc' w hw
      refine ⟨this.1, fun c hc => ⟨?_, (this.2 c hc).2⟩⟩
      rcases (this.2 c hc).1 with h | h
      · exact Or.inl (List.mem_cons_of_mem a h)
      · rcases List.mem_cons.mp h with rfl | h
        · exact Or.inl (List.mem_cons_self c l)
        · exact Or.inr h

theorem joinSpace_nil : joinSpace [] = [] := rfl

theorem joinSpace_cons (w : List Char) (ws : List (List Char)) :
    joinSpace (w :: ws) = match ws with
      | [] => w
      | _ :: _ => w ++ ' ' :: joinSpace ws := by
  cases ws <;> rfl

theorem joinSpace_mem {Q : Char → Prop} :
    ∀ (ws : List (List Char)), (∀ w ∈ ws, ∀ c ∈ w, Q c) →
      ∀ c ∈ joinSpace ws, Q c ∨ c = ' ' := by
  intro ws
  induction ws with
  | nil => intro _ c hc; simp [joinSpace_nil] at hc
  | cons w ws ih =>
    intro hws c hc
    rw [joinSpace_cons] at hc
    cases ws with
    | nil => exact Or.inl (hws w (List.mem_cons_self w _) c hc)
    | cons w' ws' =>
      rcases List.mem_append.mp hc with hc | hc
      · exact Or.inl (hws w (List.mem_cons_self w _) c hc)
      · rcases List.mem_cons.mp hc with rfl | hc
        · exact Or.inr rfl
        · exact ih (fun v hv => hws v (List.mem_cons_of_mem w hv)) c hc

theorem pyRstrip_length_le (l : List Char) : (pyRstrip l).length ≤ l.length := by
  unfold pyRstrip
  rw [List.length_reverse]
  calc (l.reverse.dropWhile pyIsSpace).length
      ≤ l.reverse.length := (List.dropWhile_sublist _).length_le
    _ = l.length := List.length_reverse l

theorem pyRstrip_subset {l : List Char} {c : Char} (h : c ∈ pyRstrip l) : c ∈ l := by
  unfold pyRstrip at h
  rw [List.mem_reverse] at h
  have := (List.dropWhile_sublist (l := l.reverse) (p := pyIsSpace)).subset h
  rwa [List.mem_reverse] at this

theorem pyLowerChar_sanitized {c : Char} (h : reAlnum c = true ∨ c = ' ') :
    isSanitizedChar (pyLowerChar c) := by
  rcases h with h | rfl
  · simp only [reAlnum, Bool.or_eq_true, Bool.and_eq_true, decide_eq_true_eq] at h
    unfold pyLowerChar
    by_cases hup : 65 ≤ c.toNat ∧ c.toNat ≤ 90
    · rw [if_pos hup]
      have hv : c.toNat + 32 < 55296 := by omega
      exact Or.inl (by rw [toNat_ofNat_lt hv]; omega)
    · rw [if_neg hup]
      rcases h with (h | h) | h
      · exact absurd h hup
      · exact Or.inl h
      · exact Or.inr (Or.inl h)
  · exact Or.inr (Or.inr (by simp [pyLowerChar]))

theorem default_category_sanitized :
    LASTPERSON07_DEFAULT_CATEGORY.data ≠ [] ∧
      LASTPERSON07_DEFAULT_CATEGORY.data.length ≤ 50 ∧
      ∀ c ∈ LASTPERSON07_DEFAULT_CATEGORY.data, isSanitizedChar c := by
  refine ⟨by decide, by decide, ?_⟩
  intro c hc
  unfold isSanitizedChar
  fin_cases hc <;> decide

theorem joinedOf_chars (category : List Char) :
    ∀ c ∈ joinedOf category, reAlnum c = true ∨ c = ' ' := by
  intro c hc
  refine joinSpace_mem (Q := fun c => reAlnum c = true) (pySplit (keptOf category))
    ?_ c hc
  intro w hw c' hc'
  have hs := pySplitAux_sound (keptOf category) [] (by simp) w hw
  have h1 := (hs.2 c' hc').1
  have h2 := (hs.2 c' hc').2
  rcases h1 with h1 | h1
  · have := List.of_mem_filter h1
    simp only [Bool.or_eq_true] at this
    rcases this with this | this
    · exact this
    · rw [this] at h2; exact absurd h2 (by simp)
  · simp at h1

theorem limitedOf_chars (category : List Char) :
    ∀ c ∈ limitedOf category, reAlnum c = true ∨ c = ' ' := by
  intro c hc
  unfold limitedOf at hc
  split at hc
  · exact joinedOf_chars category c
      (List.take_subset 50 (joinedOf category) (pyRstrip_subset hc))
  · exact joinedOf_chars category c hc

theorem limitedOf_length (category : List Char) : (limitedOf category).length ≤ 50 := by
  unfold limitedOf
  split
  · calc (pyRstrip ((joinedOf category).take 50)).length
        ≤ ((joinedOf category).take 50).length := pyRstrip_length_le _
      _ ≤ 50 := by rw [List.length_take]; omega
  · next h => omega

theorem sanitizeCore_sound (category : List Char) :
    sanitizeCore category ≠ [] ∧ (sanitizeCore category).length ≤ 50 ∧
      ∀ c ∈ sanitizeCore category, isSanitizedChar c := by
  unfold sanitizeCore
  by_cases hnil : category = []
  · rw [if_pos hnil]
    exact default_category_sanitized
  · rw [if_neg hnil]
    by_cases hlim : limitedOf category = []
    · rw [if_pos hlim]
      exact default_category_sanitized
    · rw [if_neg hlim]
      refine ⟨by simpa using hlim, by simpa using limitedOf_length category, ?_⟩
      intro c hc
      rcases List.mem_map.mp hc with ⟨a, ha, rfl⟩
      exact pyLowerChar_sanitized (limitedOf_chars category a ha)

/-- C6: for every raw category string, `lastperson07_sanitize_category`
returns a non-empty string of at most 50 characters containing only
lower-case ASCII letters, digits and spaces; it is deterministic; the empty
input and an input with no alphanumeric characters at all both yield the
fixed default category. -/
theorem sanitize_category_spec (raw other : String) (h' : raw = other) :
    lastperson07_sanitize_category raw ≠ "" ∧
      (lastperson07_sanitize_category raw).length ≤ 50 ∧
      (∀ c ∈ (lastperson07_sanitize_category raw).data, isSanitizedChar c) ∧
      lastperson07_sanitize_category raw = lastperson07_sanitize_category other ∧
      (raw = "" → lastperson07_sanitize_category raw = LASTPERSON07_DEFAULT_CATEGORY) ∧
      ((∀ c ∈ raw.data, reAlnum c = false) →
        lastperson07_sanitize_category raw = LASTPERSON07_DEFAULT_CATEGORY) := by
  have hs := sanitizeCore_sound raw.data
  refine ⟨?_, hs.2.1, hs.2.2, by rw [h'], ?_, ?_⟩
  · intro h
    exact hs.1 (congrArg String.data h)
  · intro h
    subst h
    rfl
  · intro hno
    have hkept : ∀ c ∈ keptOf raw.data, pyIsSpace c = true := by
      intro c hc
      have h1 := List.mem_filter.mp hc
      have h2 := hno c h1.1
      simpa [h2] using h1.2
    have hsplit : pySplit (keptOf raw.data) = [] := by
      rw [List.eq_nil_iff_forall_not_mem]
      intro w hw
      have hsnd := pySplitAux_sound _ [] (by simp) w hw
      rcases w with _ | ⟨c, w⟩
      · exact hsnd.1 rfl
      · have h1 := (hsnd.2 c (List.mem_cons_self c w)).1
        have h2 := (hsnd.2 c (List.mem_cons_self c w)).2
        rcases h1 with h1 | h1
        · rw [hkept c h1] at h2; exact absurd h2 (by simp)
        · simp at h1
    have hlim : limitedOf raw.data = [] := by
      unfold limitedOf joinedOf
      rw [hsplit, joinSpace_nil]
      simp
    show (⟨sanitizeCore raw.data⟩ : String) = LASTPERSON07_DEFAULT_CATEGORY
    unfold sanitizeCore
    by_cases hnil : raw.data = []
    · rw [if_pos hnil]
    · rw [if_neg hnil, if_pos hlim]

/-- Witness for C6: the claim theorem evaluated at the concrete input
`"Nature!!"` (which normalizes to `"nature"`). -/
theorem sanitize_category_spec_witness :
    "Nature!!" = "Nature!!" ∧
      (lastperson07_sanitize_category "Nature!!" ≠ "" ∧
        (lastperson07_sanitize_category "Nature!!").length ≤ 50 ∧
        (∀ c ∈ (lastperson07_sanitize_category "Nature!!").data, isSanitizedChar c) ∧
        lastperson07_sanitize_category "Nature!!" = lastperson07_sanitize_category "Nature!!" ∧
        ("Nature!!" = "" →
          lastperson07_sanitize_category "Nature!!" = LASTPERSON07_DEFAULT_CATEGORY) ∧
        ((∀ c ∈ "Nature!!".data, reAlnum c = false) →
          lastperson07_sanitize_category "Nature!!" = LASTPERSON07_DEFAULT_CATEGORY)) :=
  ⟨rfl, sanitize_category_spec "Nature!!" "Nature!!" rfl⟩

/-! ## Lemmas about the acquisition fallback chain -/

/-- A provider is skipped by `fetch_wallpaper` when its fetch yields no
record or the validator rejects the record it did yield (the validator is
only consulted when Pillow is available). -/
def rejectedBy (p : Bool) (f : String → Option LastPerson07WallpaperData)
    (v : String → Bool) (s : String) : Prop :=
  f s = none ∨ ∃ d, f s = some d ∧ p = true ∧ v d.image_url = false

theorem fetchChain_decomp (p : Bool) (f : String → Option LastPerson07WallpaperData)
    (v : String → Bool) :
    ∀ (l₁ : List String) (s : String) (l₂ : List String)
      (d : LastPerson07WallpaperData), (∀ x ∈ l₁, rejectedBy p f v x) →
      f s = some d → (!p || v d.image_url) = true →
      (fetchChain p f v (l₁ ++ s :: l₂)).result = some d ∧
        (fetchChain p f v (l₁ ++ s :: l₂)).fetched = l₁ ++ [s] := by
  intro l₁
  induction l₁ with
  | nil =>
    intro s l₂ d _ hfs hacc
    cases p with
    | false => simp [fetchChain, hfs]
    | true =>
      have hv : v d.image_url = true := by simpa using hacc
      simp [fetchChain, hfs, hv]
  | cons x l₁ ih =>
    intro s l₂ d hrej hfs hacc
    have htail := ih s l₂ d (fun y hy => hrej y (List.mem_cons_of_mem x hy)) hfs hacc
    rcases hrej x (List.mem_cons_self x _) with hx | ⟨d', hx, hp, hv⟩
    · simp [fetchChain, hx, htail.1, htail.2]
    · subst hp
      simp [fetchChain, hx, hv, htail.1, htail.2]

theorem fetchChain_some_iff (p : Bool) (f : String → Option LastPerson07WallpaperData)
    (v : String → Bool) :
    ∀ (l : List String) (d : LastPerson07WallpaperData),
      (fetchChain p f v l).result = some d ↔
        ∃ l₁ s l₂, l = l₁ ++ s :: l₂ ∧ (∀ x ∈ l₁, rejectedBy p f v x) ∧
          f s = some d ∧ (!p || v d.image_url) = true := by
  intro l
  induction l with
  | nil =>
    intro d
    constructor
    · intro h
      simp [fetchChain] at h
    · rintro ⟨l₁, s, l₂, heq, -⟩
      exact absurd heq (List.append_ne_nil_of_right_ne_nil l₁ (List.cons_ne_nil s l₂)).symm
  | cons a l ih =>
    intro d
    constructor
    · intro h
      cases hf : f a with
      | none =>
        rw [show fetchChain p f v (a :: l) =
            ⟨(fetchChain p f v l).result, a :: (fetchChain p f v l).fetched,
              (fetchChain p f v l).validated⟩ by simp [fetchChain, hf]] at h
        rcases (ih d).mp h with ⟨l₁, s, l₂, heq, hrej, hfs, hacc⟩
        refine ⟨a :: l₁, s, l₂, by simp [heq], ?_, hfs, hacc⟩
        intro x hx
        rcases List.mem_cons.mp hx with rfl | hx
        · exact Or.inl hf
        · exact hrej x hx
      | some d' =>
        cases p with
        | false =>
          rw [show fetchChain false f v (a :: l) = ⟨some d', [a], []⟩ by
            simp [fetchChain, hf]] at h
          simp at h
          subst h
          exact ⟨[], a, l, rfl, by simp, hf, rfl⟩
        | true =>
          cases hv : v d'.image_url with
          | true =>
            rw [show fetchChain true f v (a :: l) = ⟨some d', [a], [d'.image_url]⟩ by
              simp [fetchChain, hf, hv]] at h
            simp at h
            subst h
            exact ⟨[], a, l, rfl, by simp, hf, by simp [hv]⟩
          | false =>
            rw [show fetchChain true f v (a :: l) =
                ⟨(fetchChain true f v l).result, a :: (fetchChain true f v l).fetched,
                  d'.image_url :: (fetchChain true f v l).validated⟩ by
              simp [fetchChain, hf, hv]] at h
            rcases (ih d).mp h with ⟨l₁, s, l₂, heq, hrej, hfs, hacc⟩
            refine ⟨a :: l₁, s, l₂, by simp [heq], ?_, hfs, hacc⟩
            intro x hx
            rcases List.mem_cons.mp hx with rfl | hx
            · exact Or.inr ⟨d', hf, rfl, hv⟩
            · exact hrej x hx
    · rintro ⟨l₁, s, l₂, heq, hrej, hfs, hacc⟩
      rw [heq]
      exact (fetchChain_decomp p f v l₁ s l₂ d hrej hfs hacc).1

theorem fetchChain_all_none (p : Bool) (f : String → Option LastPerson07WallpaperData)
    (v : String → Bool) :
    ∀ l : List String, (∀ s ∈ l, f s = none) →
      fetchChain p f v l = ⟨none, l, []⟩ := by
  intro l
  induction l with
  | nil => intro _; rfl
  | cons a l ih =>
    intro h
    have ha : f a = none := h a (List.mem_cons_self a l)
    have ht := ih (fun s hs => h s (List.mem_cons_of_mem a hs))
    simp [fetchChain, ha, ht]

/-! ## Claims about the acquisition coordinator -/

/-- C2: `fetch_wallpaper` returns exactly the record of the first provider
in the order Unsplash, Pexels, Pixabay whose fetch yields a record that is
accepted (the code's acceptance condition
`not pillow_available or validate(url)`; when Pillow is unavailable the
validator itself returns `True` unconditionally, fetcher.py lines 238-240),
and on a decomposition witnessing that first acceptance the providers
actually fetched are precisely the rejected ones followed by the accepting
one — no provider is called after the first accepted record. -/
theorem fetch_wallpaper_short_circuit (pillow : Bool)
    (fetchApi : String → String → Option LastPerson07WallpaperData)
    (validate : String → Bool) (category : String) (d : LastPerson07WallpaperData) :
    ((fetch_wallpaper pillow fetchApi validate category).result = some d ↔
      ∃ l₁ s l₂, providerOrder = l₁ ++ s :: l₂ ∧
        (∀ x ∈ l₁, rejectedBy pillow
          (fun t => fetchApi t (lastperson07_sanitize_category category)) validate x) ∧
        fetchApi s (lastperson07_sanitize_category category) = some d ∧
        (!pillow || validate d.image_url) = true) ∧
    (∀ l₁ s l₂, providerOrder = l₁ ++ s :: l₂ →
      (∀ x ∈ l₁, rejectedBy pillow
        (fun t => fetchApi t (lastperson07_sanitize_category category)) validate x) →
      fetchApi s (lastperson07_sanitize_category category) = some d →
      (!pillow || validate d.image_url) = true →
      (fetch_wallpaper pillow fetchApi validate category).fetched = l₁ ++ [s]) := by
  constructor
  · exact fetchChain_some_iff pillow
      (fun t => fetchApi t (lastperson07_sanitize_category category)) validate
      providerOrder d
  · intro l₁ s l₂ heq hrej hfs hacc
    have := (fetchChain_decomp pillow
      (fun t => fetchApi t (lastperson07_sanitize_category category)) validate
      l₁ s l₂ d hrej hfs hacc).2
    show (fetchChain pillow
      (fun t => fetchApi t (lastperson07_sanitize_category category)) validate
      providerOrder).fetched = l₁ ++ [s]
    rw [heq]
    exact this

/-- Record produced by Pexels in the concrete short-circuit scenario. -/
def pexelsRecord : LastPerson07WallpaperData :=
  { title := "Blue", width := 2000, height := 1200, author := "A",
    source := "Pexels", image_url := "http://img", download_url := "http://dl" }

/-- Provider environment where only Pexels yields a record. -/
def pexelsOnlyApi : String → String → Option LastPerson07WallpaperData :=
  fun s _ => if s = "pexels" then some pexelsRecord else none

/-- Witness for C2: with Unsplash empty and Pexels accepted,
`fetch_wallpaper` returns the Pexels record. -/
theorem fetch_wallpaper_short_circuit_witness :
    (fetch_wallpaper true pexelsOnlyApi (fun _ => true) "nature").result =
      some pexelsRecord :=
  ((fetch_wallpaper_short_circuit true pexelsOnlyApi (fun _ => true) "nature"
      pexelsRecord).1).mpr
    ⟨["unsplash"], "pexels", ["pixabay"], rfl,
      by
        intro x hx
        rw [List.mem_singleton] at hx
        subst hx
        exact Or.inl rfl,
      rfl, rfl⟩

/-- C9: when every provider fetch yields no record, `fetch_wallpaper`
returns `None` and the validator is never invoked. -/
theorem fetch_wallpaper_all_empty (pillow : Bool)
    (fetchApi : String → String → Option LastPerson07WallpaperData)
    (validate : String → Bool) (category : String)
    (h' : ∀ s ∈ providerOrder,
      fetchApi s (lastperson07_sanitize_category category) = none) :
    (fetch_wallpaper pillow fetchApi validate category).result = none ∧
      (fetch_wallpaper pillow fetchApi validate category).validated = [] := by
  have h := fetchChain_all_none pillow
    (fun t => fetchApi t (lastperson07_sanitize_category category)) validate
    providerOrder h'
  exact ⟨by rw [show fetch_wallpaper pillow fetchApi validate category =
      ⟨none, providerOrder, []⟩ from h],
    by rw [show fetch_wallpaper pillow fetchApi validate category =
      ⟨none, providerOrder, []⟩ from h]⟩

/-- Witness for C9: the all-empty provider environment. -/
theorem fetch_wallpaper_all_empty_witness :
    (fetch_wallpaper true (fun _ _ => none) (fun _ => true) "nature").result = none ∧
      (fetch_wallpaper true (fun _ _ => none) (fun _ => true) "nature").validated = [] :=
  fetch_wallpaper_all_empty true (fun _ _ => none) (fun _ => true) "nature"
    (by intro s _; rfl)

/-- Unsplash JSON photo with every field absent. -/
def emptyUnsplashPhoto : UnsplashPhoto :=
  { alt_description := none, width := none, height := none, user_name := none,
    urls_regular := none, urls_full := none }

/-- Record the Unsplash adapter builds from `emptyUnsplashPhoto`: all the
`dict.get` defaults. -/
def defaultedRecord : LastPerson07WallpaperData :=
  { title := "Untitled", width := 0, height := 0, author := "Unknown",
    source := "Unsplash", image_url := "", download_url := "" }

/-- Provider environment where Unsplash answers with the field-less photo. -/
def defaultedApi : String → String → Option LastPerson07WallpaperData :=
  fun s _ =>
    if s = "unsplash" then
      lastperson07_fetch_from_unsplash (some "key") (ApiResponse.ok [emptyUnsplashPhoto])
    else none

/-- Unsplash JSON photo whose URLs are present but whose `width` and
`height` keys are missing. -/
def noSizePhoto : UnsplashPhoto :=
  { alt_description := none, width := none, height := none, user_name := none,
    urls_regular := some "https://images.example/a.jpg",
    urls_full := some "https://images.example/full.jpg" }

/-- Record the Unsplash adapter builds from `noSizePhoto`:
`width = 0`, `height = 0`, a reachable preview URL. -/
def noSizeRecord : LastPerson07WallpaperData :=
  { title := "Untitled", width := 0, height := 0, author := "Unknown",
    source := "Unsplash", image_url := "https://images.example/a.jpg",
    download_url := "https://images.example/full.jpg" }

/-- Provider environment where Unsplash answers with `noSizePhoto`. -/
def noSizeApi : String → String → Option LastPerson07WallpaperData :=
  fun s _ =>
    if s = "unsplash" then
      lastperson07_fetch_from_unsplash (some "key") (ApiResponse.ok [noSizePhoto])
    else none

/-- Counterexample to C1 as stated, in two realizable scenarios.  First:
Pillow available, Unsplash returns a photo whose JSON lacks the `width` and
`height` keys but whose (reachable, non-empty) URL points at bytes the
validator accepts — the image itself can decode well above the minimums
while the record's metadata defaults to `0×0`, and `fetch_wallpaper` returns
that record without ever checking its fields.  Second: Pillow unavailable,
so the download-and-validate step is skipped entirely (fetcher.py line 62
short-circuits before any network access) and even the field-less record
with an empty `image_url` is returned; the validator environment is
`fun _ => false` there, underlining that no validation call occurs. -/
theorem fetch_wallpaper_invariant_counterexample :
    ((fetch_wallpaper true noSizeApi (fun _ => true) "nature").result =
        some noSizeRecord ∧
      ¬(LASTPERSON07_MIN_IMAGE_WIDTH ≤ noSizeRecord.width ∧
        LASTPERSON07_MIN_IMAGE_HEIGHT ≤ noSizeRecord.height ∧
        noSizeRecord.image_url ≠ "")) ∧
    ((fetch_wallpaper false defaultedApi (fun _ => false) "nature").result =
        some defaultedRecord ∧
      defaultedRecord.image_url = "") := by
  exact ⟨⟨rfl, by decide⟩, rfl, rfl⟩

/-- C1 amended: a record returned by `fetch_wallpaper` always originates
from one of the three providers queried with the sanitized category, and
when Pillow is available its `image_url` was accepted by the validator;
the record's own `width`/`height` fields and the non-emptiness of
`image_url` are not checked, so the resolution / non-empty-URL invariant
on the returned record itself does not hold (see the counterexample). -/
theorem fetch_wallpaper_record_provenance (pillow : Bool)
    (fetchApi : String → String → Option LastPerson07WallpaperData)
    (validate : String → Bool) (category : String) (d : LastPerson07WallpaperData)
    (h' : (fetch_wallpaper pillow fetchApi validate category).result = some d) :
    (∃ s ∈ providerOrder,
      fetchApi s (lastperson07_sanitize_category category) = some d) ∧
      (pillow = true → validate d.image_url = true) := by
  rcases (fetchChain_some_iff pillow
    (fun t => fetchApi t (lastperson07_sanitize_category category)) validate
    providerOrder d).mp h' with ⟨l₁, s, l₂, heq, hrej, hfs, hacc⟩
  refine ⟨⟨s, ?_, hfs⟩, ?_⟩
  · rw [heq]
    exact List.mem_append_right l₁ (List.mem_cons_self s l₂)
  · intro hp
    subst hp
    simpa using hacc

/-- Witness for the amended C1: the metadata-less Unsplash record comes
from the `"unsplash"` provider and its (non-empty) URL was accepted. -/
theorem fetch_wallpaper_record_provenance_witness :
    (∃ s ∈ providerOrder,
      noSizeApi s (lastperson07_sanitize_category "nature") = some noSizeRecord) ∧
      (true = true → (fun _ => true : String → Bool) noSizeRecord.image_url = true) :=
  fetch_wallpaper_record_provenance true noSizeApi (fun _ => true) "nature"
    noSizeRecord rfl

/-! ## Claim about the content validator -/

/-- C7: the listed conditional behaviours of
`lastperson07_download_and_validate_image` hold (unconditional `True`
without Pillow; oversized `content-length` rejected with no decode attempt;
undersized decoded dimensions, disallowed format and decode failure all
rejected), BUT the claim's final conjunct — every failure path yields
`False` rather than a propagated error — is false on the code: in the
outer `except` handler (fetcher.py lines 303-307) the cleanup evaluates
`temp_path.name` on a `str`, so a network error during the download raises
`AttributeError` out of the function.  This theorem evaluates the model at
that failing input and at the documented rejection inputs. -/
theorem download_and_validate_netError_escapes :
    (lastperson07_download_and_validate_image true DownloadResult.netError).result =
      Except.error () ∧
    (∀ download : DownloadResult,
      (lastperson07_download_and_validate_image false download).result = Except.ok true) ∧
    (lastperson07_download_and_validate_image true
        (DownloadResult.ok (some (21 * 1024 * 1024)) (Decoded.img 4000 3000 "JPEG"))) =
      ⟨Except.ok false, false⟩ ∧
    (lastperson07_download_and_validate_image true
        (DownloadResult.ok none (Decoded.img 1919 1080 "JPEG"))) =
      ⟨Except.ok false, true⟩ ∧
    (lastperson07_download_and_validate_image true
        (DownloadResult.ok none (Decoded.img 1920 1080 "GIF"))) =
      ⟨Except.ok false, true⟩ ∧
    (lastperson07_download_and_validate_image true
        (DownloadResult.ok none Decoded.failure)) = ⟨Except.ok false, true⟩ ∧
    (lastperson07_download_and_validate_image true
        (DownloadResult.ok none (Decoded.img 1920 1080 "JPEG"))) =
      ⟨Except.ok true, true⟩ := by
  refine ⟨rfl, ?_, rfl, rfl, rfl, rfl, rfl⟩
  intro download
  rfl

/-! ## Claims about the quota tracker -/

/-- C3: `check_daily_limit` for a stored consumer: a premium user is never
limited and gets the `-1` sentinel regardless of the recorded count; a free
user whose stored date is today gets
`limited = (fetch_count >= limit)` and `remaining = max 0 (limit - count)`
with no store mutation; a free user whose stored date is not today
(including a missing date on first use) gets `limited = false`,
`remaining = limit`, and the stored count reset to `0` as a side effect
(other users untouched). -/
theorem check_daily_limit_spec (store : UserStore) (user_id : Int) (today : Nat)
    (u : LastPerson07User) (hu : store user_id = some u) :
    (u.tier = UserTier.premium →
      check_daily_limit store user_id today = ((false, -1), store)) ∧
    (u.tier = UserTier.free → u.last_fetch_date = some today →
      ((check_daily_limit store user_id today).1.1 = true ↔
        LASTPERSON07_FREE_FETCH_LIMIT ≤ u.fetch_count) ∧
      (check_daily_limit store user_id today).1.2 =
        max 0 (LASTPERSON07_FREE_FETCH_LIMIT - u.fetch_count) ∧
      (check_daily_limit store user_id today).2 = store) ∧
    (u.tier = UserTier.free → u.last_fetch_date ≠ some today →
      (check_daily_limit store user_id today).1 =
        (false, LASTPERSON07_FREE_FETCH_LIMIT) ∧
      (check_daily_limit store user_id today).2 user_id =
        some { u with fetch_count := 0 } ∧
      ∀ i, i ≠ user_id →
        (check_daily_limit store user_id today).2 i = store i) := by
  refine ⟨?_, ?_, ?_⟩
  · intro ht
    simp [check_daily_limit, hu, ht]
  · intro ht hd
    have heq : check_daily_limit store user_id today =
        ((max 0 (LASTPERSON07_FREE_FETCH_LIMIT - u.fetch_count) == 0,
          max 0 (LASTPERSON07_FREE_FETCH_LIMIT - u.fetch_count)), store) := by
      simp [check_daily_limit, hu, ht, hd]
    rw [heq]
    refine ⟨?_, rfl, rfl⟩
    simp only [beq_iff_eq]
    omega
  · intro ht hd
    have heq : check_daily_limit store user_id today =
        ((false, LASTPERSON07_FREE_FETCH_LIMIT), setFetchCount store user_id 0) := by
      cases hlf : u.last_fetch_date with
      | none => simp [check_daily_limit, hu, ht, hlf]
      | some dd =>
        have hne : dd ≠ today := by
          intro h
          exact hd (by rw [hlf, h])
        simp [check_daily_limit, hu, ht, hlf, hne]
    rw [heq]
    refine ⟨rfl, ?_, ?_⟩
    · simp [setFetchCount, hu]
    · intro i hi
      simp [setFetchCount, hi]

/-- Free user stored with yesterday's window and an exhausted count. -/
def staleUser : LastPerson07User :=
  { id := 7, username := some "u", first_name := "U", tier := UserTier.free,
    fetch_count := 5, last_fetch_date := some 3, banned := false }

/-- Users collection holding only `staleUser` under id 7. -/
def staleStore : UserStore := fun i => if i = 7 then some staleUser else none

/-- Witness for C3: the rollover case — stored date 3, today 4, count 5
yields `limited = false`, `remaining = 5`, and the stored count reset. -/
theorem check_daily_limit_spec_witness :
    (check_daily_limit staleStore 7 4).1 = (false, LASTPERSON07_FREE_FETCH_LIMIT) ∧
      (check_daily_limit staleStore 7 4).2 7 =
        some { staleUser with fetch_count := 0 } ∧
      ∀ i, i ≠ 7 → (check_daily_limit staleStore 7 4).2 i = staleStore i :=
  (check_daily_limit_spec staleStore 7 4 staleUser rfl).2.2 rfl (by decide)

/-- C10: for a consumer with no stored record, `check_daily_limit` reports
not limited with the full daily limit remaining and leaves the users
collection exactly as it was. -/
theorem check_daily_limit_unknown_user (store : UserStore) (user_id : Int)
    (today : Nat) (h' : store user_id = none) :
    check_daily_limit store user_id today =
      ((false, LASTPERSON07_FREE_FETCH_LIMIT), store) := by
  simp only [check_daily_limit, h']

/-- Witness for C10: the empty users collection. -/
theorem check_daily_limit_unknown_user_witness :
    check_daily_limit (fun _ => none) 1 0 =
      ((false, LASTPERSON07_FREE_FETCH_LIMIT), fun _ => none) :=
  check_daily_limit_unknown_user (fun _ => none) 1 0 rfl

/-! ## Claims about the schedule registry and job scheduler -/

/-- Active daily schedule used in the concrete scheduler scenarios. -/
def natureSchedule : LastPerson07Schedule :=
  { channel_id := 1, interval := "daily", category := "nature",
    last_post_time := none, active := true }

/-- Counterexample to C4 as stated: a tick whose acquisition fails (fetch
returns `None`) leaves the schedules collection untouched — it does not
perform the `update_schedule_last_post` write the claim requires on every
tick (scheduler.py lines 144-146 return before line 179). -/
theorem post_wallpaper_job_failed_tick_counterexample :
    (lastperson07_post_wallpaper_job [natureSchedule] 1 5 none true).1 =
      [natureSchedule] ∧
      update_schedule_last_post [natureSchedule] 1 5 ≠ [natureSchedule] := by
  exact ⟨rfl, by decide⟩

/-- C4 amended: `lastperson07_post_wallpaper_job` advances `last_post_time`
only on a tick whose acquisition succeeds and whose delivery does not raise;
a failed acquisition (and a failed delivery) leaves the stored
`last_post_time` unchanged rather than consuming the slot. -/
theorem post_wallpaper_job_updates_only_on_success
    (store : List LastPerson07Schedule) (channel_id : Int) (now : Nat)
    (fetchResult : Option LastPerson07WallpaperData) (sendOk : Bool) :
    (fetchResult = none →
      lastperson07_post_wallpaper_job store channel_id now fetchResult sendOk =
        (store, false)) ∧
    (∀ d, fetchResult = some d → sendOk = false →
      lastperson07_post_wallpaper_job store channel_id now fetchResult sendOk =
        (store, false)) ∧
    (∀ d, fetchResult = some d → sendOk = true →
      lastperson07_post_wallpaper_job store channel_id now fetchResult sendOk =
        (update_schedule_last_post store channel_id now, true)) := by
  refine ⟨?_, ?_, ?_⟩
  · intro h
    subst h
    rfl
  · intro d h hs
    subst h
    subst hs
    rfl
  · intro d h hs
    subst h
    subst hs
    rfl

/-- Witness for the amended C4: a successful fetch and delivery performs
exactly the `update_schedule_last_post` write. -/
theorem post_wallpaper_job_updates_only_on_success_witness :
    lastperson07_post_wallpaper_job [natureSchedule] 1 5 (some pexelsRecord) true =
      (update_schedule_last_post [natureSchedule] 1 5, true) :=
  (post_wallpaper_job_updates_only_on_success [natureSchedule] 1 5
    (some pexelsRecord) true).2.2 pexelsRecord rfl rfl

/-- C5: `lastperson07_remove_schedule` cancels the timer, but the database
write under the source comment "Mark as inactive in database"
(scheduler.py lines 128-129) is `update_schedule_last_post`, which sets
`last_post_time` to now and leaves `active = true` — the entry is neither
deactivated nor left otherwise unchanged.  Evaluation at the failing input:
one active daily schedule for destination 1, removed at time 7. -/
theorem remove_schedule_leaves_entry_active :
    lastperson07_remove_schedule [jobId 1 "daily"] [natureSchedule] 1 "daily" 7 =
      ([], [{ channel_id := 1, interval := "daily", category := "nature",
              last_post_time := some 7, active := true }]) := by
  decide

theorem count_addJobReplace (jobs : List String) (id : String) :
    (addJobReplace jobs id).count id = 1 := by
  unfold addJobReplace
  rw [List.count_append]
  have h0 : (jobs.filter (fun j => j ≠ id)).count id = 0 := by
    rw [List.count_eq_zero]
    intro hmem
    have := List.of_mem_filter hmem
    simp at this
  rw [h0]
  simp

theorem create_schedule_length_le (store : List LastPerson07Schedule)
    (channel_id : Int) (interval category : String) (h : store.length ≤ 1) :
    (create_schedule store channel_id interval category).length ≤ 1 := by
  unfold create_schedule
  split
  · next hg =>
    rw [hg.2]
    simp
  · exact h

theorem add_schedule_store (jobs : List String)
    (store : List LastPerson07Schedule) (channel_id : Int)
    (interval category : String) :
    (lastperson07_add_schedule jobs store channel_id interval category).2.1 =
      create_schedule store channel_id interval category := by
  simp only [lastperson07_add_schedule]
  split <;> rfl

theorem add_schedule_jobs (jobs : List String)
    (store : List LastPerson07Schedule) (channel_id : Int)
    (interval category : String) (h : interval = "hourly" ∨ interval = "daily") :
    (lastperson07_add_schedule jobs store channel_id interval category).1 =
      addJobReplace jobs (jobId channel_id interval) := by
  simp only [lastperson07_add_schedule]
  rw [if_pos h]

/-- C8: registering a second schedule for the same (destination, interval)
key supersedes the first's timer: the job id is the key and
`replace_existing=True`, so exactly one timer is armed for the key and only
one job fires at the next tick.  On the store side, every document
`create_schedule` inserts carries `_id: None`, so the collection never
holds more than one schedule document (the hypothesis `store.length ≤ 1` is
that reachable-state invariant) and in particular at most one active
ScheduleEntry exists per (destinationID, interval) pair after the double
registration. -/
theorem add_schedule_supersedes (jobs : List String)
    (store : List LastPerson07Schedule) (channel_id : Int)
    (interval category category' : String)
    (h' : interval = "hourly" ∨ interval = "daily") (hstore : store.length ≤ 1) :
    ((lastperson07_add_schedule (lastperson07_add_schedule jobs store channel_id
          interval category).1
        (lastperson07_add_schedule jobs store channel_id interval category).2.1
        channel_id interval category').2.1).length ≤ 1 ∧
    (∀ (c' : Int) (i' : String),
      (((lastperson07_add_schedule (lastperson07_add_schedule jobs store channel_id
            interval category).1
          (lastperson07_add_schedule jobs store channel_id interval category).2.1
          channel_id interval category').2.1).filter
        (fun e => e.channel_id == c' && e.interval == i' && e.active)).length ≤ 1) ∧
    ((lastperson07_add_schedule (lastperson07_add_schedule jobs store channel_id
          interval category).1
        (lastperson07_add_schedule jobs store channel_id interval category).2.1
        channel_id interval category').1).count (jobId channel_id interval) = 1 := by
  have hstore2 :
      (lastperson07_add_schedule (lastperson07_add_schedule jobs store channel_id
            interval category).1
          (lastperson07_add_schedule jobs store channel_id interval category).2.1
          channel_id interval category').2.1 =
        create_schedule (create_schedule store channel_id interval category)
          channel_id interval category' := by
    rw [add_schedule_store, add_schedule_store]
  have hlen : (create_schedule (create_schedule store channel_id interval category)
      channel_id interval category').length ≤ 1 :=
    create_schedule_length_le _ channel_id interval category'
      (create_schedule_length_le store channel_id interval category hstore)
  refine ⟨by rw [hstore2]; exact hlen, ?_, ?_⟩
  · intro c' i'
    rw [hstore2]
    calc ((create_schedule (create_schedule store channel_id interval category)
            channel_id interval category').filter
          (fun e => e.channel_id == c' && e.interval == i' && e.active)).length
        ≤ (create_schedule (create_schedule store channel_id interval category)
            channel_id interval category').length := List.length_filter_le _ _
      _ ≤ 1 := hlen
  · rw [add_schedule_jobs _ _ channel_id interval category' h']
    exact count_addJobReplace _ _

/-- Witness for C8: registering daily schedules for destination 1 twice
from the empty state leaves at most one stored entry per pair and exactly
one armed timer for the key. -/
theorem add_schedule_supersedes_witness :
    ((lastperson07_add_schedule (lastperson07_add_schedule [] [] 1
          "daily" "nature").1
        (lastperson07_add_schedule [] [] 1 "daily" "nature").2.1
        1 "daily" "city").2.1).length ≤ 1 ∧
    (∀ (c' : Int) (i' : String),
      (((lastperson07_add_schedule (lastperson07_add_schedule [] [] 1
            "daily" "nature").1
          (lastperson07_add_schedule [] [] 1 "daily" "nature").2.1
          1 "daily" "city").2.1).filter
        (fun e => e.channel_id == c' && e.interval == i' && e.active)).length ≤ 1) ∧
    ((lastperson07_add_schedule (lastperson07_add_schedule [] [] 1
          "daily" "nature").1
        (lastperson07_add_schedule [] [] 1 "daily" "nature").2.1
        1 "daily" "city").1).count (jobId 1 "daily") = 1 :=
  add_schedule_supersedes [] [] 1 "daily" "nature" "city" (Or.inr rfl) (by decide)

end LastPerson07
